import Mathlib

/-!
Verification of the claude-cli-bridge gateway.

This file gives a shallow embedding of the bridge's pure core — the
OpenAI↔CLI message translation (translate.ts), the CLI argument builder
(claude.ts), the session tracker (sessions.ts) and the server's error
classifier and streaming filter (server.ts) — and proves the behavioural
claims about them.

Modelling conventions:
* JavaScript strings are Lean `String`s; `charCodeAt` is modelled by
  `Char.toNat` and `toLowerCase` by `String.toLower` (they agree on the
  ASCII inputs the bridge handles).
* JavaScript timestamps (ms since epoch) are `Nat`; `Date.now()` becomes an
  explicit `now` parameter.
* The 32-bit signed wrap-around of the fingerprint hash (`| 0` and `<<`)
  is modelled explicitly on `Int` by `toInt32`.
* A JS `Map` is an association list with the key looked up by first match.
* Functions that throw return `Except`; truthiness tests on strings
  (`if (s)`) are modelled as explicit inequality with the empty string.
-/

/-- Does the character list `s` start with `pat`? -/
def listStartsWith : List Char → List Char → Bool
  | [], _ => true
  | _ :: _, [] => false
  | p :: ps, c :: cs => p == c && listStartsWith ps cs

/-- Does `pat` occur contiguously somewhere in `s`? -/
def listOccurs (pat : List Char) : List Char → Bool
  | [] => listStartsWith pat []
  | c :: cs => listStartsWith pat (c :: cs) || listOccurs pat cs

/-- JS `String.prototype.includes`: `pat` occurs contiguously inside `s`. -/
def strContains (s pat : String) : Bool :=
  listOccurs pat.data s.data

/-- JS `String.prototype.toLowerCase`, character by character (the bridge
only ever lowercases ASCII model names, where the two agree). -/
def jsToLower (s : String) : String :=
  String.mk (s.data.map Char.toLower)

/-- Message role, the `role` field of an OpenAI-format message
(sessions.ts, interface `Message`). -/
inductive Role where
  | system
  | user
  | assistant
deriving DecidableEq, Repr

/-- One element of an array-valued `content` field (multipart format). -/
structure ContentPart where
  type : String
  text : Option String
deriving DecidableEq, Repr

/-- The `content` field of a message: either a plain string or an array of
typed parts (sessions.ts, interface `Message`). -/
inductive Content where
  | str (s : String)
  | parts (ps : List ContentPart)
deriving DecidableEq, Repr

/-- An OpenAI-format chat message (sessions.ts, interface `Message`). -/
structure Message where
  role : Role
  content : Content
deriving DecidableEq, Repr

/-- translate.ts `extractText`: plain text of a content field.  String
content is returned as is; array content keeps the parts whose `type` is
`"text"` and whose `text` is a string, and joins their texts with `"\n"`.
(The trailing `String(content ?? '')` branch of the source is unreachable
for the `Message` content type modelled here.) -/
def extractText : Content → String
  | Content.str s => s
  | Content.parts ps =>
      String.intercalate "\n"
        ((ps.filter (fun p => p.type == "text" && p.text.isSome)).map
          (fun p => p.text.getD ""))

/-- translate.ts `TranslatedInput`: what is handed to the CLI wrapper. -/
structure TranslatedInput where
  prompt : String
  systemPrompt : Option String
  isFirstTurn : Bool
deriving DecidableEq, Repr

/-- translate.ts `translateFirstTurn`: extracts the system messages into a
newline-joined system prompt (or `none` if there are none) and renders all
non-system messages, labelled by role, into one prompt joined by blank
lines. -/
def translateFirstTurn (messages : List Message) : TranslatedInput :=
  let systemMessages := messages.filter (fun m => m.role == Role.system)
  let systemPrompt : Option String :=
    if systemMessages.length > 0 then
      some (String.intercalate "\n" (systemMessages.map (fun m => extractText m.content)))
    else
      none
  let conversation :=
    String.intercalate "\n\n"
      ((messages.filter (fun m => !(m.role == Role.system))).map (fun m =>
        let text := extractText m.content
        if m.role == Role.user then "User: " ++ text
        else if m.role == Role.assistant then "Assistant: " ++ text
        else text))
  { prompt := conversation, systemPrompt := systemPrompt, isFirstTurn := true }

/-- The error message thrown by translate.ts `translateContinueTurn` when
the messages array holds no user message. -/
def missingUserMessageError : String :=
  "No user message found in messages array — cannot continue conversation"

/-- translate.ts `translateContinueTurn`: scans the reversed messages for
the last user message and sends only its text; throws (modelled as
`Except.error`) when there is none. -/
def translateContinueTurn (messages : List Message) : Except String TranslatedInput :=
  match messages.reverse.find? (fun m => m.role == Role.user) with
  | none => Except.error missingUserMessageError
  | some m =>
      Except.ok { prompt := extractText m.content, systemPrompt := none, isFirstTurn := false }

/-- translate.ts `mapModel`: maps an OpenAI-style model name to a CLI model
tier by case-insensitive substring match, falling back to the default.
The JS falsiness test `!requestModel` is true for the absent value and for
the empty string. -/
def mapModel (requestModel : Option String) (defaultModel : String) : String :=
  match requestModel with
  | none => defaultModel
  | some rm =>
      if rm = "" then defaultModel
      else
        let normalized := jsToLower rm
        if strContains normalized "haiku" then "haiku"
        else if strContains normalized "opus" then "opus"
        else if strContains normalized "sonnet" then "sonnet"
        else defaultModel

/-- The fixed model vocabulary recognised by `mapModel`. -/
def modelVocab : List String := ["haiku", "opus", "sonnet"]

/-- claude.ts `ClaudeArgs`: configuration of one CLI invocation. -/
structure ClaudeArgs where
  model : String
  systemPrompt : Option String
  sessionId : String
  continueSession : Bool
  stream : Bool
  tools : String
deriving DecidableEq, Repr

/-- claude.ts `buildArgs`: the CLI argument array.  `config.maxTurns` is
passed explicitly as `maxTurns`.  The JS truthiness test
`if (opts.systemPrompt)` skips both the absent and the empty system
prompt. -/
def buildArgs (maxTurns : Nat) (opts : ClaudeArgs) : List String :=
  ["-p"]
  ++ ["--model", opts.model]
  ++ (if opts.continueSession then ["--resume", opts.sessionId]
      else ["--session-id", opts.sessionId])
  ++ (if opts.stream then
        ["--output-format", "stream-json", "--verbose", "--include-partial-messages"]
      else ["--output-format", "json"])
  ++ ["--allowedTools", opts.tools]
  ++ (match opts.systemPrompt with
      | some sp => if sp = "" then [] else ["--system-prompt", sp]
      | none => [])
  ++ ["--max-turns", toString maxTurns]

/-- The process invocation performed by claude.ts: the argument vector
given to `spawn`/`execSync` plus the text written to standard input. -/
structure CliInvocation where
  argv : List String
  stdin : String
deriving DecidableEq, Repr

/-- claude.ts `callClaudeSync`, restricted to how it invokes the process:
arguments from `buildArgs` with `stream` forced off, prompt on stdin. -/
def callClaudeSyncCmd (prompt : String) (maxTurns : Nat) (opts : ClaudeArgs) : CliInvocation :=
  { argv := buildArgs maxTurns { opts with stream := false }, stdin := prompt }

/-- claude.ts `callClaudeStream`, restricted to how it invokes the process:
arguments from `buildArgs` with `stream` forced on, prompt on stdin. -/
def callClaudeStreamCmd (prompt : String) (maxTurns : Nat) (opts : ClaudeArgs) : CliInvocation :=
  { argv := buildArgs maxTurns { opts with stream := true }, stdin := prompt }

/-- sessions.ts `Session`: one tracked CLI session. -/
structure Session where
  claudeSessionId : String
  turnCount : Nat
  lastUsedAt : Nat
  messageCount : Nat
deriving DecidableEq, Repr

/-- The mutable state of a sessions.ts `SessionTracker`: the `Map` of
sessions (as an association list, first match wins) and the TTL. -/
structure TrackerState where
  sessions : List (String × Session)
  ttlMs : Nat
deriving DecidableEq, Repr

/-- JS `Map.prototype.get` on the session map. -/
def lookupKey (k : String) : List (String × Session) → Option Session
  | [] => none
  | p :: rest => if p.1 == k then some p.2 else lookupKey k rest

/-- JS `Map.prototype.delete` on the session map (keys are unique, so
dropping every pair with the key is the same as dropping the entry). -/
def eraseKey (k : String) (l : List (String × Session)) : List (String × Session) :=
  l.filter (fun p => !(p.1 == k))

namespace SessionTracker

/-- sessions.ts `SessionTracker.get`: returns the stored session unless it
is absent or older than the TTL; an over-age entry is deleted from the map
and `null` is returned.  `Date.now()` is the explicit `now`. -/
def get (now : Nat) (conversationKey : String) (st : TrackerState) :
    Option Session × TrackerState :=
  match lookupKey conversationKey st.sessions with
  | none => (none, st)
  | some session =>
      if now - session.lastUsedAt > st.ttlMs then
        (none, { st with sessions := eraseKey conversationKey st.sessions })
      else
        (some session, st)

/-- sessions.ts `SessionTracker.create`: inserts a fresh session (the
`randomUUID()` value is the explicit `uuid`). -/
def create (uuid : String) (now : Nat) (conversationKey : String) (st : TrackerState) :
    Session × TrackerState :=
  let session : Session :=
    { claudeSessionId := uuid, turnCount := 0, lastUsedAt := now, messageCount := 0 }
  (session, { st with sessions := (conversationKey, session) :: eraseKey conversationKey st.sessions })

/-- sessions.ts `SessionTracker.touch`: refreshes the timestamp and bumps
the counters of the entry, if present. -/
def touch (now : Nat) (conversationKey : String) (st : TrackerState) : TrackerState :=
  { st with
    sessions := st.sessions.map (fun p =>
      if p.1 == conversationKey then
        (p.1, { p.2 with
                  lastUsedAt := now
                  turnCount := p.2.turnCount + 1
                  messageCount := p.2.messageCount + 1 })
      else p) }

/-- sessions.ts `SessionTracker.delete`: removes the entry. -/
def delete (conversationKey : String) (st : TrackerState) : TrackerState :=
  { st with sessions := eraseKey conversationKey st.sessions }

end SessionTracker

/-- Wrap an integer into the signed 32-bit range, as the JS `| 0` and
shift operators do. -/
def toInt32 (n : Int) : Int :=
  let m := n % 4294967296
  if m < 2147483648 then m else m - 4294967296

/-- One step of the sessions.ts fingerprint hash:
`hash = ((hash << 5) - hash + charCode) | 0`.  The JS `<<` itself wraps
its result to signed 32 bits, hence the inner `toInt32`. -/
def jsHashStep (h : Int) (c : Nat) : Int :=
  toInt32 (toInt32 (h * 32) - h + (c : Int))

/-- The sessions.ts fingerprint hash loop over the characters of `s`
(`charCodeAt` modelled as the character's code point, which agrees on the
ASCII role labels and typical text). -/
def jsHash (s : String) : Int :=
  s.data.foldl (fun h c => jsHashStep h c.toNat) 0

/-- One digit of JS `Number.prototype.toString(36)`. -/
def base36Digit (d : Nat) : Char :=
  if d < 10 then Char.ofNat (48 + d) else Char.ofNat (87 + d)

/-- Digit accumulator for `toBase36`. -/
def toBase36Aux (n : Nat) (acc : List Char) : List Char :=
  if h : n = 0 then acc
  else toBase36Aux (n / 36) (base36Digit (n % 36) :: acc)
termination_by n
decreasing_by exact Nat.div_lt_self (Nat.pos_of_ne_zero h) (by decide)

/-- JS `Number.prototype.toString(36)` for a non-negative integer. -/
def toBase36 (n : Nat) : String :=
  if n = 0 then "0" else String.mk (toBase36Aux n [])

/-- The text a message contributes to the sessions.ts fingerprint: string
content as is; array content keeps parts whose `type` is `"text"` and
whose `text` is truthy (present and non-empty), joined by a space. -/
def fingerprintText : Content → String
  | Content.str s => s
  | Content.parts ps =>
      String.intercalate " "
        ((ps.filter (fun p => p.type == "text" && !(p.text.getD "" == ""))).map
          (fun p => p.text.getD ""))

/-- The `role` field as the string it is in the JS source. -/
def roleString : Role → String
  | Role.system => "system"
  | Role.user => "user"
  | Role.assistant => "assistant"

/-- The sessions.ts fingerprint: the first three messages rendered as
`role:first-200-chars` and joined by `|`. -/
def fingerprintOf (messages : List Message) : String :=
  String.intercalate "|"
    ((messages.take 3).map (fun m =>
      roleString m.role ++ ":" ++ (fingerprintText m.content).take 200))

/-- The fingerprint-derived conversation key:
`"conv-" + Math.abs(hash).toString(36)`. -/
def fingerprintKey (messages : List Message) : String :=
  "conv-" ++ toBase36 (jsHash (fingerprintOf messages)).natAbs

/-- sessions.ts `SessionTracker.makeKey`: the explicit conversation id when
truthy (present and non-empty), otherwise the message fingerprint. -/
def SessionTracker.makeKey (conversationId : Option String) (messages : List Message) : String :=
  match conversationId with
  | some cid => if cid = "" then fingerprintKey messages else cid
  | none => fingerprintKey messages

/-- The error envelope produced by server.ts `handleError`: the HTTP
status and the `error` body fields. -/
structure ErrorResponse where
  status : Nat
  message : String
  type : String
  code : String
deriving DecidableEq, Repr

/-- server.ts `handleError`: classifies a CLI failure by matching phrases
in the error text, in source order (rate limit, auth, timeout, session,
fallback).  The session branch also deletes the conversation's tracker
entry when a key was supplied.  Inputs: the error's message (`rawMsg`,
with the `|| 'Unknown error'` fallback applied first), its `killed` flag,
the optional conversation key and the tracker state. -/
def handleError (rawMsg : String) (killed : Bool) (convKey : Option String)
    (st : TrackerState) : ErrorResponse × TrackerState :=
  let message := if rawMsg = "" then "Unknown error" else rawMsg
  if strContains message "rate limit" || strContains message "quota" ||
     strContains message "cooldown" || strContains message "capacity" then
    ({ status := 429, message := "Claude rate limited",
       type := "rate_limit_error", code := "rate_limit_exceeded" }, st)
  else if strContains message "not authorized" || strContains message "credential" ||
          strContains message "login" then
    ({ status := 401, message := "Claude auth expired — run: claude login",
       type := "authentication_error", code := "invalid_api_key" }, st)
  else if killed || strContains message "ETIMEDOUT" || strContains message "timeout" then
    ({ status := 504, message := "Claude CLI timeout",
       type := "timeout_error", code := "timeout" }, st)
  else if strContains message "session" || strContains message "Session not found" then
    ({ status := 502, message := "Claude session expired, retry will create new session",
       type := "server_error", code := "session_expired" },
     match convKey with
     | some k => SessionTracker.delete k st
     | none => st)
  else
    ({ status := 502, message := "Claude CLI error: " ++ message.take 200,
       type := "server_error", code := "internal_error" }, st)

/-- claude.ts `StreamEvent.event.content_block`. -/
structure ContentBlock where
  type : String
deriving DecidableEq, Repr

/-- claude.ts `StreamEvent.event.delta`. -/
structure Delta where
  type : Option String
  text : Option String
  thinking : Option String
deriving DecidableEq, Repr

/-- claude.ts `StreamEvent.event`: the nested sub-event of a
`stream_event`. -/
structure InnerEvent where
  type : String
  content_block : Option ContentBlock
  delta : Option Delta
deriving DecidableEq, Repr

/-- claude.ts `StreamEvent`: one parsed line of `stream-json` output.
(`result` and `usage` are read by the server only for logging and the
final result text, which the streaming filter does not forward.) -/
structure StreamEvent where
  type : String
  event : Option InnerEvent := none
  result : Option String := none
  usage : Option Nat := none
deriving DecidableEq, Repr

/-- One outbound SSE unit written by server.ts `handleStream`:
an incremental text frame (`formatSSEChunk`), the normal terminal frame
(`formatSSEDone`, finish chunk plus the `[DONE]` sentinel), an error data
frame, or the bare `[DONE]` sentinel written on the failure path. -/
inductive Frame where
  | chunk (text : String)
  | finish
  | errorData (etype : String) (ecode : String)
  | doneSentinel
deriving DecidableEq, Repr

/-- Frames that terminate the outbound stream for the consumer. -/
def Frame.isTerminal : Frame → Bool
  | Frame.finish => true
  | Frame.doneSentinel => true
  | _ => false

/-- What the body of the server.ts `handleStream` loop does with one
event in state `inside` (the `insideThinkingBlock` flag). -/
inductive EventAction where
  | terminal
  | skip (newInside : Bool)
  | emit (text : String)
deriving DecidableEq, Repr

/-- The branch structure of the server.ts `handleStream` loop body, in
source order: a `result` event returns; a thinking `content_block_start`
opens the block; a `content_block_stop` inside the block closes it; any
event inside the block is skipped; a `thinking_delta` is skipped even
outside a block; a truthy `delta.text` is forwarded; everything else is
ignored. -/
def classify (inside : Bool) (e : StreamEvent) : EventAction :=
  if e.type == "result" then EventAction.terminal
  else if e.type == "stream_event" then
    match e.event with
    | none => EventAction.skip inside
    | some inner =>
        if inner.type == "content_block_start" &&
           (inner.content_block.map ContentBlock.type).getD "" == "thinking" then
          EventAction.skip true
        else if inner.type == "content_block_stop" && inside then
          EventAction.skip false
        else if inside then
          EventAction.skip inside
        else if (inner.delta.bind Delta.type).getD "" == "thinking_delta" then
          EventAction.skip inside
        else
          match inner.delta.bind Delta.text with
          | some t => if t == "" then EventAction.skip inside else EventAction.emit t
          | none => EventAction.skip inside
  else EventAction.skip inside

/-- The server.ts `handleStream` event loop: the frames written while
consuming the events, and whether a `result` event ended the loop early
(its `return` statement, after writing the terminal frame; later events
are never seen). -/
def processEvents : Bool → List StreamEvent → List Frame × Bool
  | _, [] => ([], false)
  | inside, e :: rest =>
      match classify inside e with
      | EventAction.terminal => ([Frame.finish], true)
      | EventAction.skip ni => processEvents ni rest
      | EventAction.emit t =>
          let r := processEvents inside rest
          (Frame.chunk t :: r.1, r.2)

/-- The outward effects of one server.ts `handleStream` call. -/
structure StreamResult where
  frames : List Frame
  touched : Nat
  ended : Bool
deriving DecidableEq, Repr

/-- server.ts `handleStream`: consumes the event stream through
`processEvents`; on an early `result` return the session was touched and
the terminal frame already written; if the stream ends without a result
event the session is touched and a terminal frame written anyway; if the
underlying iteration throws after yielding `events` (`err` carries the
error message and `killed` flag), the catch block classifies the error
with `handleError` (deleting the session entry on a session error) and,
the channel still being open, writes one error frame and the `[DONE]`
sentinel.  Every path ends the response. -/
def handleStream (now : Nat) (events : List StreamEvent) (err : Option (String × Bool))
    (convKey : String) (st : TrackerState) : StreamResult × TrackerState :=
  let r := processEvents false events
  if r.2 then
    ({ frames := r.1, touched := 1, ended := true }, SessionTracker.touch now convKey st)
  else
    match err with
    | none =>
        ({ frames := r.1 ++ [Frame.finish], touched := 1, ended := true },
         SessionTracker.touch now convKey st)
    | some (msg, killed) =>
        let he := handleError msg killed (some convKey) st
        ({ frames := r.1 ++ [Frame.errorData he.1.type he.1.code, Frame.doneSentinel],
           touched := 0, ended := true }, he.2)

/-- Synthetic event: start of a reasoning ("thinking") content block. -/
def reasoningStartEvent : StreamEvent :=
  { type := "stream_event",
    event := some { type := "content_block_start",
                    content_block := some { type := "thinking" }, delta := none } }

/-- Synthetic event: an incremental delta tagged as a thinking delta,
carrying reasoning text (both as `thinking` and, adversarially, as a
plain `text` fragment a broken filter would forward). -/
def reasoningDeltaEvent (t : String) : StreamEvent :=
  { type := "stream_event",
    event := some { type := "content_block_delta", content_block := none,
                    delta := some { type := some "thinking_delta",
                                    text := some t, thinking := some t } } }

/-- Synthetic event: end of the current content block. -/
def blockStopEvent : StreamEvent :=
  { type := "stream_event",
    event := some { type := "content_block_stop",
                    content_block := none, delta := none } }

/-- Synthetic event: an ordinary incremental text delta. -/
def textDeltaEvent (t : String) : StreamEvent :=
  { type := "stream_event",
    event := some { type := "content_block_delta", content_block := none,
                    delta := some { type := some "text_delta",
                                    text := some t, thinking := none } } }

/-- Synthetic event: the terminal result event. -/
def resultEvent (r : String) : StreamEvent :=
  { type := "result", result := some r }

/-- The synthetic sequence of the streaming-filter claim:
[block-start(reasoning), delta(reasoning-text), block-stop,
delta(text="X"), result]. -/
def syntheticSeq : List StreamEvent :=
  [reasoningStartEvent, reasoningDeltaEvent "secret", blockStopEvent,
   textDeltaEvent "X", resultEvent "X"]

/-- First message body of the C10 witness: 200 copies of a followed by b. -/
def keyLongText1 : Content :=
  Content.str (String.mk (List.replicate 200 'a' ++ ['b']))

/-- First message body of the other C10 witness list: same 200-character
prefix, different 201st character. -/
def keyLongText2 : Content :=
  Content.str (String.mk (List.replicate 200 'a' ++ ['c']))

/-- C10 witness list one: three shared messages plus a fourth. -/
def keyMsgs1 : List Message :=
  [⟨Role.system, keyLongText1⟩, ⟨Role.user, Content.str "hello"⟩,
   ⟨Role.assistant, Content.str "hi"⟩, ⟨Role.user, Content.str "later divergence"⟩]

/-- C10 witness list two: same roles and 200-character prefixes on the
first three messages, no fourth message. -/
def keyMsgs2 : List Message :=
  [⟨Role.system, keyLongText2⟩, ⟨Role.user, Content.str "hello"⟩,
   ⟨Role.assistant, Content.str "hi"⟩]

/-- A reasoning-tagged delta is skipped without a state change, whether or
not a reasoning block is open. -/
theorem classify_reasoningDelta (s : Bool) (t : String) :
    classify s (reasoningDeltaEvent t) = EventAction.skip s := by
  cases s <;> rfl

/-- Inserting a reasoning-tagged delta anywhere in the event sequence
changes nothing about the rendered frames or the early-return flag. -/
theorem processEvents_insert_reasoningDelta (t : String) :
    ∀ (l₁ : List StreamEvent) (s : Bool) (l₂ : List StreamEvent),
      processEvents s (l₁ ++ reasoningDeltaEvent t :: l₂) = processEvents s (l₁ ++ l₂) := by
  intro l₁
  induction l₁ with
  | nil =>
      intro s l₂
      simp [processEvents, classify_reasoningDelta]
  | cons e t₁ ih =>
      intro s l₂
      simp only [List.cons_append, processEvents]
      cases h : classify s e with
      | terminal => rfl
      | skip ni => exact ih ni l₂
      | emit u => simp [ih s l₂]

/-- When the event loop returned early (a result event), the last frame it
wrote is the terminal frame. -/
theorem processEvents_early_getLast :
    ∀ (l : List StreamEvent) (s : Bool), (processEvents s l).2 = true →
      (processEvents s l).1.getLast? = some Frame.finish := by
  intro l
  induction l with
  | nil => intro s h; simp [processEvents] at h
  | cons e rest ih =>
      intro s h
      simp only [processEvents] at h ⊢
      cases hc : classify s e with
      | terminal => simp [hc]
      | skip ni =>
          simp only [hc] at h ⊢
          exact ih ni h
      | emit u =>
          simp only [hc] at h ⊢
          have h2 := ih s h
          have hne : (processEvents s rest).1 ≠ [] := by
            intro hnil
            rw [hnil] at h2
            simp at h2
          rcases hx : (processEvents s rest).1 with _ | ⟨a, l2⟩
          · exact absurd hx hne
          · rw [hx] at h2
            simpa using h2

/-- Looking a key up after erasing it finds nothing. -/
theorem lookupKey_eraseKey (k : String) :
    ∀ l : List (String × Session), lookupKey k (eraseKey k l) = none := by
  intro l
  induction l with
  | nil => rfl
  | cons p rest ih =>
      by_cases h : p.1 = k
      · simpa [eraseKey, h] using ih
      · simpa [eraseKey, lookupKey, h] using ih

/-- `find?` returns the head of the filtered list. -/
theorem find?_eq_head?_filter (p : α → Bool) :
    ∀ l : List α, l.find? p = (l.filter p).head? := by
  intro l
  induction l with
  | nil => rfl
  | cons a rest ih =>
      cases h : p a
      · rw [List.find?_cons_of_neg _ (by simp [h]), List.filter_cons_of_neg (by simp [h]), ih]
      · rw [List.find?_cons_of_pos _ h, List.filter_cons_of_pos h]
        rfl

/-- Searching the reversed list is taking the last match. -/
theorem find?_reverse_eq_getLast?_filter (p : α → Bool) (l : List α) :
    l.reverse.find? p = (l.filter p).getLast? := by
  rw [find?_eq_head?_filter, List.filter_reverse, List.head?_reverse]

/-- A list segment is an infix of itself. -/
theorem seg_infix_self (b : List α) : b <:+: b :=
  ⟨[], [], by simp⟩

/-- An infix of `m` is an infix of `l ++ m`. -/
theorem seg_infix_right (l : List α) {b m : List α} (h : b <:+: m) : b <:+: l ++ m := by
  obtain ⟨s, t, rfl⟩ := h
  exact ⟨l ++ s, t, by simp⟩

/-- An infix of `l` is an infix of `l ++ m`. -/
theorem seg_infix_left (m : List α) {b l : List α} (h : b <:+: l) : b <:+: l ++ m := by
  obtain ⟨s, t, rfl⟩ := h
  exact ⟨s, t ++ m, by simp⟩

/-- C1: on the synthetic sequence [block-start(reasoning),
delta(reasoning-text), block-stop, delta(text="X"), result] the streaming
handler renders exactly one incremental text frame, carrying "X", and
exactly one terminal frame, with nothing derived from the reasoning block;
moreover a delta tagged as a thinking delta is suppressed wherever it
occurs in the event sequence, inside or outside a tracked block. -/
theorem C1_streaming_filter :
    (handleStream 0 syntheticSeq none "conv" ⟨[], 1800000⟩).1.frames
        = [Frame.chunk "X", Frame.finish]
    ∧ ((handleStream 0 syntheticSeq none "conv" ⟨[], 1800000⟩).1.frames.filter
          (fun f => f == Frame.chunk "X")).length = 1
    ∧ ((handleStream 0 syntheticSeq none "conv" ⟨[], 1800000⟩).1.frames.filter
          Frame.isTerminal).length = 1
    ∧ (∀ (l₁ : List StreamEvent) (s : Bool) (l₂ : List StreamEvent) (t : String),
        processEvents s (l₁ ++ reasoningDeltaEvent t :: l₂) = processEvents s (l₁ ++ l₂)) :=
  ⟨by decide, by decide, by decide,
   fun l₁ s l₂ t => processEvents_insert_reasoningDelta t l₁ s l₂⟩

/-- C8: the streaming handler always closes the channel and its outbound
frame sequence always ends in a terminal marker; when iteration ends
without an error the session is touched exactly once and the last frame is
the normal terminal frame (whether or not a result event occurred); when
iteration throws, the handler appends exactly one error frame followed by
the [DONE] sentinel to whatever the loop had written (unless a result
event had already closed the stream, in which case the error is moot). -/
theorem C8_stream_terminus (now : Nat) (events : List StreamEvent)
    (err : Option (String × Bool)) (convKey : String) (st : TrackerState)
    (e : String) (k : Bool) :
    (handleStream now events err convKey st).1.ended = true
    ∧ ((handleStream now events err convKey st).1.frames.getLast?).map Frame.isTerminal
        = some true
    ∧ (handleStream now events none convKey st).1.touched = 1
    ∧ (handleStream now events none convKey st).1.frames.getLast? = some Frame.finish
    ∧ (handleStream now events (some (e, k)) convKey st).1.touched
        = (if (processEvents false events).2 then 1 else 0)
    ∧ (handleStream now events (some (e, k)) convKey st).1.frames
        = (if (processEvents false events).2 then (processEvents false events).1
           else (processEvents false events).1
                ++ [Frame.errorData (handleError e k (some convKey) st).1.type
                      (handleError e k (some convKey) st).1.code,
                    Frame.doneSentinel]) := by
  have hlast : ∀ err2 : Option (String × Bool),
      ((handleStream now events err2 convKey st).1.frames.getLast?).map Frame.isTerminal
        = some true := by
    intro err2
    simp only [handleStream]
    cases h : (processEvents false events).2 with
    | true =>
        simp only [h, if_true]
        rw [processEvents_early_getLast events false h]
        rfl
    | false =>
        rcases err2 with _ | ⟨m, kk⟩
        · simp [h, List.getLast?_concat, Frame.isTerminal]
        · simp [h, List.getLast?_append, Frame.isTerminal]
  refine ⟨?_, hlast err, ?_, ?_, ?_, ?_⟩
  · simp only [handleStream]
    cases h : (processEvents false events).2 <;> rcases err with _ | ⟨m, kk⟩ <;> simp [h]
  · simp only [handleStream]
    cases h : (processEvents false events).2 <;> simp [h]
  · have := hlast none
    simp only [handleStream] at this ⊢
    cases h : (processEvents false events).2 with
    | true =>
        simp only [h, if_true] at this ⊢
        exact processEvents_early_getLast events false h
    | false => simp [h, List.getLast?_concat]
  · simp only [handleStream]
    cases h : (processEvents false events).2 <;> simp [h]
  · simp only [handleStream]
    cases h : (processEvents false events).2 <;> simp [h]

/-- C2: the tracker's `get` returns a stored session exactly while its age
is within the TTL; a stored session strictly past the TTL is deleted from
the registry and not returned, with no sweep involved; a missing key
leaves the state unchanged; and a returned session is never stale. -/
theorem C2_session_get (now : Nat) (k : String) (st : TrackerState) :
    (∀ s, lookupKey k st.sessions = some s → now - s.lastUsedAt ≤ st.ttlMs →
        SessionTracker.get now k st = (some s, st))
    ∧ (∀ s, lookupKey k st.sessions = some s → now - s.lastUsedAt > st.ttlMs →
        (SessionTracker.get now k st).1 = none
        ∧ lookupKey k (SessionTracker.get now k st).2.sessions = none)
    ∧ (lookupKey k st.sessions = none → SessionTracker.get now k st = (none, st))
    ∧ (∀ s, (SessionTracker.get now k st).1 = some s → now - s.lastUsedAt ≤ st.ttlMs) := by
  refine ⟨?_, ?_, ?_, ?_⟩
  · intro s hs hfresh
    simp only [SessionTracker.get, hs]
    rw [if_neg (by omega)]
  · intro s hs hstale
    simp only [SessionTracker.get, hs]
    rw [if_pos (by omega)]
    exact ⟨rfl, lookupKey_eraseKey k st.sessions⟩
  · intro hnone
    simp [SessionTracker.get, hnone]
  · intro s hsome
    simp only [SessionTracker.get] at hsome
    cases hl : lookupKey k st.sessions with
    | none => simp [hl] at hsome
    | some s0 =>
        simp only [hl] at hsome
        by_cases hage : now - s0.lastUsedAt > st.ttlMs
        · rw [if_pos hage] at hsome
          simp at hsome
        · rw [if_neg hage] at hsome
          simp only [Option.some.injEq] at hsome
          subst hsome
          omega

/-- Witness for C2: on a concrete registry with one fresh and one stale
entry, `get` returns the fresh session unchanged, refuses the stale one
and removes it from the registry. -/
theorem C2_session_get_witness :
    SessionTracker.get 5000 "a"
        ⟨[("a", ⟨"id1", 2, 4500, 2⟩), ("b", ⟨"id2", 1, 1000, 1⟩)], 1000⟩
      = (some ⟨"id1", 2, 4500, 2⟩,
         ⟨[("a", ⟨"id1", 2, 4500, 2⟩), ("b", ⟨"id2", 1, 1000, 1⟩)], 1000⟩)
    ∧ (SessionTracker.get 5000 "b"
        ⟨[("a", ⟨"id1", 2, 4500, 2⟩), ("b", ⟨"id2", 1, 1000, 1⟩)], 1000⟩).1 = none
    ∧ lookupKey "b" (SessionTracker.get 5000 "b"
        ⟨[("a", ⟨"id1", 2, 4500, 2⟩), ("b", ⟨"id2", 1, 1000, 1⟩)], 1000⟩).2.sessions = none := by
  have h1 := (C2_session_get 5000 "a"
      ⟨[("a", ⟨"id1", 2, 4500, 2⟩), ("b", ⟨"id2", 1, 1000, 1⟩)], 1000⟩).1
      ⟨"id1", 2, 4500, 2⟩ (by decide) (by decide)
  have h2 := (C2_session_get 5000 "b"
      ⟨[("a", ⟨"id1", 2, 4500, 2⟩), ("b", ⟨"id2", 1, 1000, 1⟩)], 1000⟩).2.1
      ⟨"id2", 1, 1000, 1⟩ (by decide) (by decide)
  exact ⟨h1, h2.1, h2.2⟩

/-- C3: the built argument vector always carries the session-identifier
argument (resume on a continuation, session creation on a first turn,
directly followed by the identifier) and the max-turns bound; streaming
adds the stream-json output format together with the verbose and
partial-messages flags; and the prompt reaches the process only on
standard input — the argument vector does not depend on it. -/
theorem C3_cli_invocation (mt : Nat) (opts : ClaudeArgs) (p q : String) :
    (if opts.continueSession then ["--resume", opts.sessionId]
     else ["--session-id", opts.sessionId]) <:+: buildArgs mt opts
    ∧ ["--max-turns", toString mt] <:+: buildArgs mt opts
    ∧ ["--output-format", "stream-json", "--verbose", "--include-partial-messages"]
        <:+: buildArgs mt { opts with stream := true }
    ∧ (callClaudeSyncCmd p mt opts).argv = (callClaudeSyncCmd q mt opts).argv
    ∧ (callClaudeSyncCmd p mt opts).stdin = p
    ∧ (callClaudeStreamCmd p mt opts).argv = (callClaudeStreamCmd q mt opts).argv
    ∧ (callClaudeStreamCmd p mt opts).stdin = p := by
  refine ⟨?_, ?_, ?_, rfl, rfl, rfl, rfl⟩
  · exact seg_infix_left _ (seg_infix_left _ (seg_infix_left _ (seg_infix_left _
      (seg_infix_right _ (seg_infix_self _)))))
  · exact seg_infix_right _ (seg_infix_self _)
  · exact seg_infix_left _ (seg_infix_left _ (seg_infix_left _
      (seg_infix_right _ (seg_infix_self _))))

/-- C4: the first-turn translation marks the first turn, joins exactly the
system messages (in order, newline-separated) into the system prompt —
absent when there are none — and renders exactly the non-system messages,
in order with their role labels, into the prompt joined by blank lines.
(The embedding is pure, so the input list is untouched and the result
depends on nothing but the input.) -/
theorem C4_first_turn (msgs : List Message) :
    (translateFirstTurn msgs).isFirstTurn = true
    ∧ (translateFirstTurn msgs).systemPrompt =
        (if msgs.filter (fun m => m.role == Role.system) = [] then none
         else some (String.intercalate "\n"
            ((msgs.filter (fun m => m.role == Role.system)).map
              (fun m => extractText m.content))))
    ∧ (translateFirstTurn msgs).prompt =
        String.intercalate "\n\n"
          ((msgs.filter (fun m => !(m.role == Role.system))).map (fun m =>
            if m.role == Role.user then "User: " ++ extractText m.content
            else if m.role == Role.assistant then "Assistant: " ++ extractText m.content
            else extractText m.content)) := by
  refine ⟨rfl, ?_, rfl⟩
  simp only [translateFirstTurn]
  cases h : msgs.filter (fun m => m.role == Role.system) with
  | nil => simp [h]
  | cons a l => simp [h]

/-- C5: the continuation translation returns exactly the text of the last
user message as the prompt, with no system prompt and the first-turn flag
off, and fails with the missing-user-message error precisely when the list
holds no user message. -/
theorem C5_continue_turn (msgs : List Message) :
    translateContinueTurn msgs =
      (match (msgs.filter (fun m => m.role == Role.user)).getLast? with
       | some m => Except.ok { prompt := extractText m.content,
                               systemPrompt := none, isFirstTurn := false }
       | none => Except.error missingUserMessageError)
    ∧ ((msgs.filter (fun m => m.role == Role.user)).getLast? = none
        ↔ ∀ m ∈ msgs, m.role ≠ Role.user) := by
  constructor
  · simp only [translateContinueTurn]
    rw [find?_reverse_eq_getLast?_filter]
    cases (msgs.filter (fun m => m.role == Role.user)).getLast? <;> rfl
  · rw [List.getLast?_eq_none_iff, List.filter_eq_nil_iff]
    simp

/-- C6: a backend failure whose text carries a known rate-limit phrase is
classified as HTTP 429 with the rate-limit error envelope, leaving the
session registry untouched. -/
theorem C6_rate_limit (msg : String) (killed : Bool) (ck : Option String) (st : TrackerState)
    (h : strContains msg "rate limit" = true ∨ strContains msg "quota" = true ∨
         strContains msg "cooldown" = true ∨ strContains msg "capacity" = true) :
    (handleError msg killed ck st).1.status = 429
    ∧ (handleError msg killed ck st).1.type = "rate_limit_error"
    ∧ (handleError msg killed ck st).1.code = "rate_limit_exceeded"
    ∧ (handleError msg killed ck st).2 = st := by
  have hne : ¬(msg = "") := by
    intro he
    subst he
    rcases h with h | h | h | h <;> exact absurd h (by decide)
  have hcond : (strContains msg "rate limit" || strContains msg "quota" ||
      strContains msg "cooldown" || strContains msg "capacity") = true := by
    rcases h with h | h | h | h <;> simp [h]
  simp [handleError, hne, hcond]

/-- Witness for C6: a "quota exceeded" failure yields 429 with the
rate-limit envelope. -/
theorem C6_rate_limit_witness :
    (handleError "quota exceeded" false none ⟨[], 1000⟩).1.status = 429
    ∧ (handleError "quota exceeded" false none ⟨[], 1000⟩).1.type = "rate_limit_error"
    ∧ (handleError "quota exceeded" false none ⟨[], 1000⟩).1.code = "rate_limit_exceeded"
    ∧ (handleError "quota exceeded" false none ⟨[], 1000⟩).2 = ⟨[], 1000⟩ :=
  C6_rate_limit "quota exceeded" false none ⟨[], 1000⟩ (Or.inr (Or.inl (by decide)))

/-- C7: a backend failure recognised as a session error (after the
rate-limit, auth and timeout classifiers have not matched) surfaces the
502 session-expired envelope and deletes the conversation's entry from
the session registry, so the key no longer resolves; and no other
classification of `handleError` ever changes the registry. -/
theorem C7_session_error (msg k : String) (st : TrackerState)
    (hrl : strContains msg "rate limit" = false ∧ strContains msg "quota" = false ∧
           strContains msg "cooldown" = false ∧ strContains msg "capacity" = false)
    (hauth : strContains msg "not authorized" = false ∧ strContains msg "credential" = false ∧
             strContains msg "login" = false)
    (htime : strContains msg "ETIMEDOUT" = false ∧ strContains msg "timeout" = false)
    (hs : strContains msg "session" = true ∨ strContains msg "Session not found" = true) :
    (handleError msg false (some k) st).1.status = 502
    ∧ (handleError msg false (some k) st).1.type = "server_error"
    ∧ (handleError msg false (some k) st).1.code = "session_expired"
    ∧ (handleError msg false (some k) st).2 = SessionTracker.delete k st
    ∧ lookupKey k (handleError msg false (some k) st).2.sessions = none
    ∧ (∀ (m2 : String) (k2 : Bool) (ck2 : Option String) (st2 : TrackerState),
        (handleError m2 k2 ck2 st2).1.code ≠ "session_expired" →
        (handleError m2 k2 ck2 st2).2 = st2) := by
  have hne : ¬(msg = "") := by
    intro he
    subst he
    rcases hs with h | h <;> exact absurd h (by decide)
  have hmain : handleError msg false (some k) st =
      ({ status := 502, message := "Claude session expired, retry will create new session",
         type := "server_error", code := "session_expired" }, SessionTracker.delete k st) := by
    rcases hs with h | h <;>
      simp [handleError, hne, hrl.1, hrl.2.1, hrl.2.2.1, hrl.2.2.2,
            hauth.1, hauth.2.1, hauth.2.2, htime.1, htime.2, h]
  refine ⟨?_, ?_, ?_, ?_, ?_, ?_⟩
  · rw [hmain]
  · rw [hmain]
  · rw [hmain]
  · rw [hmain]
  · rw [hmain]
    simp [SessionTracker.delete, lookupKey_eraseKey]
  · intro m2 k2 ck2 st2 hcode
    simp only [handleError] at hcode ⊢
    split_ifs at hcode ⊢ <;>
      first
        | rfl
        | exact absurd rfl hcode

/-- Witness for C7: a "Session not found" failure on a registry holding
the conversation key yields the session-expired envelope and removes the
entry. -/
theorem C7_session_error_witness :
    (handleError "Session not found" false (some "k1")
        ⟨[("k1", ⟨"id", 0, 0, 0⟩)], 5⟩).1.status = 502
    ∧ (handleError "Session not found" false (some "k1")
        ⟨[("k1", ⟨"id", 0, 0, 0⟩)], 5⟩).1.code = "session_expired"
    ∧ (handleError "Session not found" false (some "k1")
        ⟨[("k1", ⟨"id", 0, 0, 0⟩)], 5⟩).2
        = SessionTracker.delete "k1" ⟨[("k1", ⟨"id", 0, 0, 0⟩)], 5⟩
    ∧ lookupKey "k1" (handleError "Session not found" false (some "k1")
        ⟨[("k1", ⟨"id", 0, 0, 0⟩)], 5⟩).2.sessions = none := by
  have h := C7_session_error "Session not found" "k1" ⟨[("k1", ⟨"id", 0, 0, 0⟩)], 5⟩
    (by refine ⟨?_, ?_, ?_, ?_⟩ <;> decide)
    (by refine ⟨?_, ?_, ?_⟩ <;> decide)
    (by refine ⟨?_, ?_⟩ <;> decide)
    (Or.inr (by decide))
  exact ⟨h.1, h.2.2.1, h.2.2.2.1, h.2.2.2.2.1⟩

/-- C9: model mapping is case-insensitive and substring-based over the
vocabulary {haiku, opus, sonnet}: an input containing exactly one of the
tokens (after lowercasing) resolves to that tier, and an absent or
unrecognized input resolves to the supplied fallback. -/
theorem C9_map_model (s u d t : String)
    (ht : t ∈ modelVocab)
    (hs : strContains (jsToLower s) t = true)
    (huniq : ∀ t2 ∈ modelVocab, t2 ≠ t → strContains (jsToLower s) t2 = false)
    (hu : ∀ t2 ∈ modelVocab, strContains (jsToLower u) t2 = false) :
    mapModel (some s) d = t ∧ mapModel none d = d ∧ mapModel (some u) d = d := by
  have hu3 : mapModel (some u) d = d := by
    by_cases hu0 : u = ""
    · simp [mapModel, hu0]
    · have h1 := hu "haiku" (by simp [modelVocab])
      have h2 := hu "opus" (by simp [modelVocab])
      have h3 := hu "sonnet" (by simp [modelVocab])
      simp [mapModel, hu0, h1, h2, h3]
  refine ⟨?_, rfl, hu3⟩
  have ht2 : t = "haiku" ∨ t = "opus" ∨ t = "sonnet" := by
    simpa [modelVocab] using ht
  rcases ht2 with rfl | rfl | rfl
  · have hne : ¬(s = "") := by
      intro he
      subst he
      exact absurd hs (by decide)
    simp [mapModel, hne, hs]
  · have hne : ¬(s = "") := by
      intro he
      subst he
      exact absurd hs (by decide)
    have hhk := huniq "haiku" (by simp [modelVocab]) (by decide)
    simp [mapModel, hne, hhk, hs]
  · have hne : ¬(s = "") := by
      intro he
      subst he
      exact absurd hs (by decide)
    have hhk := huniq "haiku" (by simp [modelVocab]) (by decide)
    have hop := huniq "opus" (by simp [modelVocab]) (by decide)
    simp [mapModel, hne, hhk, hop, hs]

set_option maxRecDepth 8192 in
/-- Witness for C9: "Claude-Opus-Extended" resolves to opus, an absent
model falls back, an unrecognized model falls back. -/
theorem C9_map_model_witness :
    mapModel (some "Claude-Opus-Extended") "sonnet" = "opus"
    ∧ mapModel none "sonnet" = "sonnet"
    ∧ mapModel (some "gpt-4o") "sonnet" = "sonnet" :=
  C9_map_model "Claude-Opus-Extended" "gpt-4o" "sonnet" "opus"
    (by decide) (by decide) (by decide) (by decide)

/-- C10: with no explicit conversation identifier, the conversation key is
a function of the roles and the first 200 characters of fingerprint text
of the first three messages only — two message lists agreeing on those
yield the identical key; an explicit (non-empty, i.e. truthy) identifier
is the key itself, whatever the messages. -/
theorem C10_conversation_key (cid : String) (m1 m2 : List Message)
    (hcid : cid ≠ "")
    (h : (m1.take 3).map (fun m => (m.role, (fingerprintText m.content).take 200))
       = (m2.take 3).map (fun m => (m.role, (fingerprintText m.content).take 200))) :
    SessionTracker.makeKey none m1 = SessionTracker.makeKey none m2
    ∧ SessionTracker.makeKey (some cid) m1 = cid
    ∧ SessionTracker.makeKey (some cid) m2 = cid := by
  have hfp : fingerprintOf m1 = fingerprintOf m2 := by
    have hm : ∀ ms : List Message,
        (ms.take 3).map (fun m => roleString m.role ++ ":" ++ (fingerprintText m.content).take 200)
          = ((ms.take 3).map (fun m => (m.role, (fingerprintText m.content).take 200))).map
              (fun pr => roleString pr.1 ++ ":" ++ pr.2) := by
      intro ms
      rw [List.map_map, Function.comp_def]
    unfold fingerprintOf
    rw [hm m1, hm m2, h]
  refine ⟨?_, ?_, ?_⟩
  · simp [SessionTracker.makeKey, fingerprintKey, hfp]
  · simp [SessionTracker.makeKey, hcid]
  · simp [SessionTracker.makeKey, hcid]

set_option maxRecDepth 65536 in
/-- Witness for C10: the two lists differ beyond the 200-character
truncation and in their later messages, yet share the fingerprint key;
an explicit identifier overrides both. -/
theorem C10_conversation_key_witness :
    SessionTracker.makeKey none keyMsgs1 = SessionTracker.makeKey none keyMsgs2
    ∧ SessionTracker.makeKey (some "conv-42") keyMsgs1 = "conv-42"
    ∧ SessionTracker.makeKey (some "conv-42") keyMsgs2 = "conv-42" :=
  C10_conversation_key "conv-42" keyMsgs1 keyMsgs2 (by decide) (by decide)

/-- Witness for C5: on a concrete conversation the continuation turn picks
the text of the last user message with no system prompt and the first-turn
flag off; a list without a user message fails with the missing-user
error. -/
theorem C5_continue_turn_witness :
    translateContinueTurn
        [⟨Role.system, Content.str "s"⟩, ⟨Role.user, Content.str "m1"⟩,
         ⟨Role.assistant, Content.str "r"⟩, ⟨Role.user, Content.str "m2"⟩]
      = Except.ok ⟨"m2", none, false⟩
    ∧ translateContinueTurn [⟨Role.system, Content.str "s"⟩]
      = Except.error missingUserMessageError := by
  have h1 := C5_continue_turn
    [⟨Role.system, Content.str "s"⟩, ⟨Role.user, Content.str "m1"⟩,
     ⟨Role.assistant, Content.str "r"⟩, ⟨Role.user, Content.str "m2"⟩]
  have h2 := C5_continue_turn [⟨Role.system, Content.str "s"⟩]
  refine ⟨?_, ?_⟩
  · rw [h1.1]
    rfl
  · rw [h2.1]
    rfl
